import Mathlib

/-!
Verification of the cached multi-source aggregation core of pi-disp
(src/backend/cache.py, src/backend/data_fetchers/news.py,
src/backend/data_fetchers/weather.py, src/backend/config.py).

The Python code is embedded shallowly: the SQLite cache table becomes an
association list threaded explicitly through each operation, wall-clock time
(`time.time()`) becomes an explicit `now : Int` argument, and upstream network
responses become explicit parameters of the run being modelled.
-/

namespace PiDisp

/-! ### Cache (src/backend/cache.py)

The table `cache(key TEXT PRIMARY KEY, value TEXT, expires_at REAL, created_at REAL)`
is modelled as an association list from key to entry.  The `value` column holds
`json.dumps(value)` text; the json codec is an external library, so stored text is
represented by its decode result: `wellFormed v` stands for text produced by
`json.dumps v` (which `json.loads` decodes back to `v`), and `corrupt raw` stands
for text that `json.loads` rejects (data corruption). -/

inductive StoredBytes (α : Type) where
  | wellFormed (v : α)
  | corrupt (raw : String)
deriving DecidableEq, Repr

/-- Model of `json.dumps` on a serializable value: produces well-formed text. -/
def json_dumps {α : Type} (v : α) : StoredBytes α := .wellFormed v

/-- Model of `json.loads`: decodes well-formed text; on corrupt text it raises a
`json.JSONDecodeError`, whose message is abstracted by the raw text. -/
def json_loads {α : Type} : StoredBytes α → Except String α
  | .wellFormed v => .ok v
  | .corrupt raw => .error raw

/-- One row of the `cache` table. -/
structure CacheEntry (α : Type) where
  value : StoredBytes α
  expires_at : Int
  created_at : Int
deriving DecidableEq, Repr

/-- The cache table; `key` is the primary key (rows are looked up by first match). -/
abbrev CacheState (α : Type) := List (String × CacheEntry α)

/-- `SELECT value, expires_at FROM cache WHERE key = ?`. -/
def lookupEntry {α : Type} (st : CacheState α) (key : String) : Option (CacheEntry α) :=
  (st.find? (fun p => p.1 == key)).map (fun p => p.2)

namespace Cache

/-- `Cache.set`: serialize, compute `expires_at = now + ttl_seconds`,
`INSERT OR REPLACE` the row.  No validation is performed on `ttl_seconds`. -/
def set {α : Type} (st : CacheState α) (key : String) (value : α)
    (ttl_seconds : Int) (now : Int) : CacheState α :=
  let serialized := json_dumps value
  let expires_at := now + ttl_seconds
  (key, ⟨serialized, expires_at, now⟩) :: st.filter (fun p => p.1 != key)

/-- `Cache.delete`: `DELETE FROM cache WHERE key = ?`; returns `rowcount > 0`. -/
def delete {α : Type} (st : CacheState α) (key : String) : Bool × CacheState α :=
  let st2 := st.filter (fun p => p.1 != key)
  (decide (st2.length < st.length), st2)

/-- `Cache.get`: fetch the row; `None` if absent; if `time.time() > expires_at`,
delete the row and return `None`; otherwise `json.loads` the stored text, raising
`CacheError` (modelled as the error message) if it cannot be decoded. -/
def get {α : Type} (st : CacheState α) (key : String) (now : Int) :
    Except String (Option α) × CacheState α :=
  match lookupEntry st key with
  | none => (.ok none, st)
  | some entry =>
    if now > entry.expires_at then
      (.ok none, (delete st key).2)
    else
      match json_loads entry.value with
      | .ok v => (.ok (some v), st)
      | .error e => (.error ("Cannot deserialize cached value: " ++ e), st)

/-- Result of `Cache.get_stats` (the `database_path` field is omitted: it is not
part of the counting behaviour). -/
structure Stats where
  total_entries : Nat
  expired_entries : Nat
  valid_entries : Nat
deriving DecidableEq, Repr

/-- `Cache.get_stats`: `COUNT(*)`, `COUNT(*) WHERE expires_at < now`, and their
difference. -/
def get_stats {α : Type} (st : CacheState α) (now : Int) : Stats :=
  let total := st.length
  let expired := (st.filter (fun p => decide (p.2.expires_at < now))).length
  { total_entries := total, expired_entries := expired, valid_entries := total - expired }

end Cache

/-! ### News aggregation (src/backend/data_fetchers/news.py) -/

/-- Unified news article representation (class `NewsArticle`). -/
structure NewsArticle where
  title : String
  link : String
  source : String
  published : String
  description : String
deriving DecidableEq, Repr

/-- `NewsArticle.__init__`: `self.published = published or datetime.now().isoformat()`
and `self.description = description or ""`.  Python `or` treats both `None` and the
empty string as falsy; `now_iso` is the construction-time `datetime.now().isoformat()`. -/
def mkNewsArticle (title link source : String) (published : Option String)
    (description : Option String) (now_iso : String) : NewsArticle :=
  { title := title
    link := link
    source := source
    published :=
      match published with
      | some p => if p = "" then now_iso else p
      | none => now_iso
    description :=
      match description with
      | some d => d
      | none => "" }

/-- The dictionary produced by `NewsArticle.to_dict` (the JSON object cached and
returned by the aggregator). -/
structure ArticleDict where
  title : String
  link : String
  source : String
  published : String
  description : String
deriving DecidableEq, Repr

/-- `NewsArticle.to_dict`. -/
def NewsArticle.to_dict (a : NewsArticle) : ArticleDict :=
  { title := a.title
    link := a.link
    source := a.source
    published := a.published
    description := a.description }

/-- The sort key of `NewsAggregator.get_news`:
`lambda a: a.published if a.published else ''`. -/
def sortKey (a : NewsArticle) : String :=
  if a.published = "" then "" else a.published

/-- Python string comparison is lexicographic on code points, i.e. the
lexicographic order on the character list. -/
def pubBelow (a b : NewsArticle) : Prop := (sortKey a).data < (sortKey b).data

instance (a b : NewsArticle) : Decidable (pubBelow a b) := by
  unfold pubBelow; infer_instance

/-- One insertion step of `list.sort(key=…, reverse=True)`: place `x` after every
element whose key is at least `x`'s and before the first element whose key is
strictly below it.  Equal keys keep their original relative order, matching the
stability guarantee of Python's sort. -/
def insertDesc (x : NewsArticle) : List NewsArticle → List NewsArticle
  | [] => [x]
  | y :: ys => if pubBelow x y then y :: insertDesc x ys else x :: y :: ys

/-- `all_articles.sort(key=lambda a: a.published if a.published else '', reverse=True)`:
stable descending sort by the publish key. -/
def sortByPublishedDesc (l : List NewsArticle) : List NewsArticle :=
  l.foldr insertDesc []

/-- A configured `NewsSource` together with the outcome its `fetch_articles(limit)`
call produces in the run being modelled: `.ok articles` when the fetch returns that
list, `.error msg` when it raises a `NewsError` with message `msg`.  Upstream
network behaviour is a parameter of the model; `name` is `get_source_name()`. -/
structure SourceRun where
  name : String
  fetched : Except String (List NewsArticle)
deriving Repr

/-- Exceptions that can escape `NewsAggregator.get_news`: a `CacheError` from the
cache read, or a `NewsError` raised by the aggregator itself. -/
inductive AppError where
  | cacheError (message : String)
  | newsError (message : String)
deriving DecidableEq, Repr

/-- The aggregated cache key of `NewsAggregator.get_news`. -/
def newsCacheKey : String := "news_aggregated"

/-- Python `'; '.join(errors)`. -/
def joinSemi : List String → String
  | [] => ""
  | [e] => e
  | e :: f :: rest => e ++ "; " ++ joinSemi (f :: rest)

/-- `NewsAggregator.get_news`.  The shared cache stores the JSON array of article
dictionaries under `newsCacheKey`.  `sources` is `self.sources` paired with the
fetch outcome of each source in this run, in registration order; `now` is
`time.time()`; `ttl` is config `news.cache_duration` (default 900).  Returns the
article list together with the cache state after the call, or the exception. -/
def get_news (st : CacheState (List ArticleDict)) (sources : List SourceRun)
    (limit : Nat) (force_refresh : Bool) (now : Int) (ttl : Int) :
    Except AppError (List ArticleDict × CacheState (List ArticleDict)) :=
  let cacheStep :=
    if force_refresh then (Except.ok none, st) else Cache.get st newsCacheKey now
  match cacheStep with
  | (.error msg, _) => .error (.cacheError msg)
  | (.ok (some cached_data), st1) => .ok (cached_data.take limit, st1)
  | (.ok none, st1) =>
    let fetched := sources.foldl
      (fun acc s =>
        match s.fetched with
        | .ok articles => (acc.1 ++ articles, acc.2)
        | .error e => (acc.1, acc.2 ++ [s.name ++ ": " ++ e]))
      (([] : List NewsArticle), ([] : List String))
    let all_articles := fetched.1
    let errors := fetched.2
    if all_articles.isEmpty then
      if !errors.isEmpty then
        .error (.newsError ("All news sources failed: " ++ joinSemi errors))
      else
        .error (.newsError "No news sources configured")
    else
      let sorted := sortByPublishedDesc all_articles
      let articles_dict := sorted.map NewsArticle.to_dict
      let limited := articles_dict.take limit
      let st2 := Cache.set st1 newsCacheKey limited ttl now
      .ok (limited, st2)

/-- Articles of the sources whose fetch succeeded, concatenated in registration
order (what the fetch loop of `get_news` accumulates into `all_articles`). -/
def successArticles : List SourceRun → List NewsArticle
  | [] => []
  | s :: rest =>
    (match s.fetched with
     | .ok articles => articles
     | .error _ => []) ++ successArticles rest

/-- Per-source error messages collected by the fetch loop of `get_news`, in
registration order, each formatted `f"{source.get_source_name()}: {e}"`. -/
def collectedErrors : List SourceRun → List String
  | [] => []
  | s :: rest =>
    (match s.fetched with
     | .ok _ => []
     | .error e => [s.name ++ ": " ++ e]) ++ collectedErrors rest

/-! ### Weather fetcher (src/backend/data_fetchers/weather.py, src/backend/config.py) -/

/-- Configuration collaborator (`config.py`): a dotted-path lookup.  `Config.get`
returns `None` for a missing key; values are abstracted as strings (the core only
compares them against `None` or passes them through). -/
def Config : Type := String → Option String

/-- `Config.get(key)` (without default). -/
def Config.get (cfg : Config) (key : String) : Option String := cfg key

/-- `Config.get(key, default)`. -/
def Config.getD (cfg : Config) (key : String) (default : String) : String :=
  (cfg key).getD default

/-- `Config.has(key)`: `self.get(key) is not None`. -/
def Config.has (cfg : Config) (key : String) : Bool := (cfg key).isSome

/-- Exceptions of the weather module: `WeatherConfigError` and `WeatherAPIError`,
both subclasses of `WeatherError`. -/
inductive WeatherError where
  | configError (message : String)
  | apiError (message : String)
deriving DecidableEq, Repr

/-- The `required_fields` dict of `WeatherFetcher._validate_config`, in insertion
order. -/
def required_fields : List (String × String) :=
  [("weather.api_key", "OpenWeatherMap API key"),
   ("weather.latitude", "Latitude coordinate"),
   ("weather.longitude", "Longitude coordinate")]

/-- `WeatherFetcher._validate_config`: raise `WeatherConfigError` at the first
required field the configuration does not have. -/
def validate_config (cfg : Config) : Except WeatherError Unit :=
  match required_fields.find? (fun fd => !(cfg.has fd.1)) with
  | some fd =>
    .error (.configError ("Missing required configuration: " ++ fd.2 ++ " (" ++ fd.1 ++ ")"))
  | none => .ok ()

/-- A constructed `WeatherFetcher` (holds its injected configuration). -/
structure WeatherFetcher where
  config : Config

/-- `WeatherFetcher.__init__`: store the injected dependencies and validate the
configuration eagerly.  Construction takes no upstream response as input: no
network call is involved (fetching happens only inside `get_weather`). -/
def WeatherFetcher.init (cfg : Config) : Except WeatherError WeatherFetcher :=
  match validate_config cfg with
  | .error e => .error e
  | .ok _ => .ok ⟨cfg⟩

/-- The `main` object of an OpenWeatherMap payload, as read by
`_transform_response`: every field the code reads with `.get` is optional.
Numeric JSON values are modelled as exact rationals. -/
structure MainSection where
  temp : Option ℚ
  feels_like : Option ℚ
  temp_min : Option ℚ
  temp_max : Option ℚ
  humidity : Option ℚ
  pressure : Option ℚ

/-- One element of the `weather` array of the payload. -/
structure WeatherSection where
  main : Option String
  description : Option String
  icon : Option String

/-- The `wind` object of the payload. -/
structure WindSection where
  speed : Option ℚ
  deg : Option ℚ

/-- The `clouds` object of the payload. -/
structure CloudsSection where
  all : Option ℚ

/-- The `sys` object of the payload. -/
structure SysSection where
  country : Option String

/-- An upstream weather payload (a JSON object), typed by the shape
`_transform_response` reads; every key it accesses with `.get` is optional. -/
structure WeatherPayload where
  main : Option MainSection
  weather : Option (List WeatherSection)
  wind : Option WindSection
  clouds : Option CloudsSection
  sys : Option SysSection
  name : Option String

/-- The empty dict default `api_data.get('main', {})`. -/
def emptyMain : MainSection := ⟨none, none, none, none, none, none⟩

/-- The empty dict inside the default `api_data.get('weather', [{}])`. -/
def emptyWeather : WeatherSection := ⟨none, none, none⟩

/-- The empty dict default `api_data.get('wind', {})`. -/
def emptyWind : WindSection := ⟨none, none⟩

/-- The empty dict default `api_data.get('clouds', {})`. -/
def emptyClouds : CloudsSection := ⟨none⟩

/-- The empty dict default `api_data.get('sys', {})`. -/
def emptySys : SysSection := ⟨none⟩

/-- Python `round(x, 1)` on an exact rational: round `x * 10` to the nearest
integer, ties to even (banker's rounding), and divide by 10. -/
def roundHalfEven (q : ℚ) : ℤ :=
  if Int.fract q = 1 / 2 then 2 * round (q / 2) else round q

/-- Python `round(x, 1)`. -/
def round1 (q : ℚ) : ℚ := (roundHalfEven (q * 10) : ℚ) / 10

/-- The canonical weather record built by `_transform_response`. -/
structure WeatherRecord where
  temperature : ℚ
  feels_like : ℚ
  temp_min : ℚ
  temp_max : ℚ
  condition : String
  description : String
  icon : String
  humidity : ℚ
  pressure : ℚ
  wind_speed : ℚ
  wind_direction : ℚ
  cloudiness : ℚ
  location : String
  country : String
  timestamp : String
  units : String

/-- `WeatherFetcher._transform_response`.  `units` is
`config.get('weather.units', 'imperial')` and `now_iso` is
`datetime.now().isoformat()`.  On this typed payload the only failure the
`try/except` can observe is the `IndexError` of `api_data.get('weather', [{}])[0]`
when `weather` is present but an empty array.  The record built in the
successful branch is factored out as `transform_ok`. -/
def transform_ok (api_data : WeatherPayload) (weather : WeatherSection)
    (units : String) (now_iso : String) : WeatherRecord :=
  let main := api_data.main.getD emptyMain
  let wind := api_data.wind.getD emptyWind
  let clouds := api_data.clouds.getD emptyClouds
  let sys := api_data.sys.getD emptySys
  { temperature := round1 (main.temp.getD 0)
    feels_like := round1 (main.feels_like.getD 0)
    temp_min := round1 (main.temp_min.getD 0)
    temp_max := round1 (main.temp_max.getD 0)
    condition := weather.main.getD "Unknown"
    description := weather.description.getD "No description"
    icon := weather.icon.getD ""
    humidity := main.humidity.getD 0
    pressure := main.pressure.getD 0
    wind_speed := round1 (wind.speed.getD 0)
    wind_direction := wind.deg.getD 0
    cloudiness := clouds.all.getD 0
    location := api_data.name.getD "Unknown"
    country := sys.country.getD ""
    timestamp := now_iso
    units := units }

def transform_response (api_data : WeatherPayload) (units : String) (now_iso : String) :
    Except WeatherError WeatherRecord :=
  match (api_data.weather.getD [emptyWeather]).head? with
  | none => .error (.apiError "Failed to parse API response: list index out of range")
  | some weather => .ok (transform_ok api_data weather units now_iso)

/-! ### Concrete inputs used by counterexamples and witnesses -/

/-- A construction time shared by the two sample articles below
(`datetime.now().isoformat()` at fetch time). -/
def c1NowIso : String := "2024-01-01T00:00:00"

/-- An upstream entry that carried a published timestamp (older than the
construction time). -/
def c1ArticleDated : NewsArticle :=
  mkNewsArticle "old" "l1" "RSS: example" (some "2020-01-01T00:00:00") none c1NowIso

/-- An upstream entry whose published timestamp was missing; `NewsArticle.__init__`
fills in the construction time. -/
def c1ArticleUndated : NewsArticle :=
  mkNewsArticle "fresh" "l2" "RSS: example" none none c1NowIso

/-! ### Theorems: cache claims -/

theorem lookupEntry_set_self {α : Type} (st : CacheState α) (key : String) (v : α)
    (ttl now : Int) :
    lookupEntry (Cache.set st key v ttl now) key = some ⟨json_dumps v, now + ttl, now⟩ := by
  simp [lookupEntry, Cache.set]

theorem filter_ne_key_of_not_mem {α : Type} (st : CacheState α) (key : String)
    (h : key ∉ st.map Prod.fst) : st.filter (fun p => p.1 != key) = st := by
  apply List.filter_eq_self.mpr
  intro p hp
  simp only [bne_iff_ne, ne_eq]
  intro hpk
  exact h (hpk ▸ List.mem_map_of_mem Prod.fst hp)

theorem lookupEntry_eq_none_of_not_mem {α : Type} (st : CacheState α) (key : String)
    (h : key ∉ st.map Prod.fst) : lookupEntry st key = none := by
  have hf : st.find? (fun p => p.1 == key) = none := by
    rw [List.find?_eq_none]
    intro p hp
    simp only [beq_iff_eq]
    intro hpk
    exact h (hpk ▸ List.mem_map_of_mem Prod.fst hp)
  simp [lookupEntry, hf]

theorem lookupEntry_cons {α : Type} (hd : String × CacheEntry α) (tl : CacheState α)
    (key : String) :
    lookupEntry (hd :: tl) key = if hd.1 = key then some hd.2 else lookupEntry tl key := by
  by_cases h : hd.1 = key
  · simp [lookupEntry, List.find?_cons_of_pos _ (by simp [h] : (hd.1 == key) = true), h]
  · have hf : List.find? (fun p : String × CacheEntry α => p.1 == key) (hd :: tl) =
        List.find? (fun p : String × CacheEntry α => p.1 == key) tl :=
      List.find?_cons_of_neg _ (by simp [h])
    simp [lookupEntry, hf, h]

theorem cache_get_of_lookup_some {α : Type} (st : CacheState α) (key : String) (now : Int)
    (e : CacheEntry α) (hl : lookupEntry st key = some e) :
    Cache.get st key now =
      if now > e.expires_at then (Except.ok none, (Cache.delete st key).2)
      else
        match json_loads e.value with
        | .ok v => (.ok (some v), st)
        | .error m => (.error ("Cannot deserialize cached value: " ++ m), st) := by
  rw [Cache.get, hl]

theorem delete_counts {α : Type} (key : String) (now : Int) (st : CacheState α)
    (e : CacheEntry α) (hnd : (st.map Prod.fst).Nodup) (hl : lookupEntry st key = some e) :
    (st.filter (fun p => p.1 != key)).length + 1 = st.length ∧
    lookupEntry (st.filter (fun p => p.1 != key)) key = none ∧
    ((st.filter (fun p => p.1 != key)).filter (fun p => decide (p.2.expires_at < now))).length
        + (if e.expires_at < now then 1 else 0)
      = (st.filter (fun p => decide (p.2.expires_at < now))).length := by
  induction st with
  | nil => simp [lookupEntry] at hl
  | cons hd tl ih =>
    simp only [List.map_cons, List.nodup_cons] at hnd
    obtain ⟨hhd, hndtl⟩ := hnd
    rw [lookupEntry_cons] at hl
    by_cases hk : hd.1 = key
    · rw [if_pos hk] at hl
      replace hl : hd.2 = e := Option.some.inj hl
      subst hl
      have hnm : key ∉ tl.map Prod.fst := hk ▸ hhd
      have hfc : (hd :: tl).filter (fun p => p.1 != key) = tl := by
        rw [List.filter_cons]
        simp only [hk, bne_self_eq_false, cond_false]
        exact filter_ne_key_of_not_mem tl key hnm
      refine ⟨by rw [hfc]; simp, by rw [hfc]; exact lookupEntry_eq_none_of_not_mem tl key hnm, ?_⟩
      rw [hfc]
      by_cases hexp : hd.2.expires_at < now <;> simp [List.filter_cons, hexp]
    · rw [if_neg hk] at hl
      obtain ⟨ih1, ih2, ih3⟩ := ih hndtl hl
      have hfc : (hd :: tl).filter (fun p => p.1 != key) =
          hd :: tl.filter (fun p => p.1 != key) := by
        rw [List.filter_cons]
        simp [hk]
      refine ⟨?_, ?_, ?_⟩
      · rw [hfc]
        simp only [List.length_cons]
        omega
      · rw [hfc, lookupEntry_cons, if_neg hk]
        exact ih2
      · rw [hfc]
        by_cases hexp : hd.2.expires_at < now <;>
          simp [List.filter_cons, hexp] at ih3 ⊢ <;> omega

/-- C5: for every key `k`, serializable value `v` and TTL `t > 0`, `Cache.set k v t`
followed by `Cache.get k` before `t` elapses returns `v` unchanged (round-trip
through serialization and storage), leaving the state as the `set` wrote it. -/
theorem cache_set_get_roundtrip {α : Type} (st : CacheState α) (key : String) (v : α)
    (ttl now now2 : Int) (httl : 0 < ttl) (hfresh : now2 ≤ now + ttl) :
    Cache.get (Cache.set st key v ttl now) key now2 =
      (Except.ok (some v), Cache.set st key v ttl now) := by
  have hl := lookupEntry_set_self st key v ttl now
  rw [Cache.get, hl]
  simp only [json_dumps, json_loads]
  rw [if_neg (by omega)]

theorem cache_set_get_roundtrip_witness :
    Cache.get (Cache.set ([] : CacheState Nat) "weather" 72 1800 1000) "weather" 1000 =
      (Except.ok (some 72), Cache.set ([] : CacheState Nat) "weather" 72 1800 1000) :=
  cache_set_get_roundtrip [] "weather" 72 1800 1000 1000 (by norm_num) (by norm_num)

/-- C6: `Cache.get k` returns `None` exactly when no row exists for `k` or the
current time is strictly past the row's `expires_at`; in the expired case the row
is deleted, so it disappears from the counts of a subsequent `get_stats` (lazy
expiration). -/
theorem cache_get_absent_iff_lazy_expiration {α : Type} (st : CacheState α)
    (key : String) (now : Int) (hnd : (st.map Prod.fst).Nodup) :
    ((Cache.get st key now).1 = Except.ok none ↔
      lookupEntry st key = none ∨ ∃ e, lookupEntry st key = some e ∧ e.expires_at < now) ∧
    (∀ e, lookupEntry st key = some e → e.expires_at < now →
      lookupEntry (Cache.get st key now).2 key = none ∧
      Cache.get_stats (Cache.get st key now).2 now =
        { total_entries := (Cache.get_stats st now).total_entries - 1,
          expired_entries := (Cache.get_stats st now).expired_entries - 1,
          valid_entries := (Cache.get_stats st now).valid_entries }) := by
  constructor
  · cases hl : lookupEntry st key with
    | none => simp [Cache.get, hl]
    | some e =>
      rw [cache_get_of_lookup_some st key now e hl]
      by_cases hexp : now > e.expires_at
      · rw [if_pos hexp]
        simp only [hl, Option.some.injEq, reduceCtorEq, false_or]
        constructor
        · intro _
          exact ⟨e, rfl, hexp⟩
        · intro _
          trivial
      · rw [if_neg hexp]
        have hnexp : ¬ e.expires_at < now := hexp
        cases hv : json_loads e.value with
        | ok v => simp [hv, hl, hnexp]
        | error m => simp [hv, hl, hnexp]
  · intro e hl hexp
    have hgt : now > e.expires_at := hexp
    rw [cache_get_of_lookup_some st key now e hl, if_pos hgt]
    obtain ⟨h1, h2, h3⟩ := delete_counts key now st e hnd hl
    rw [if_pos hexp] at h3
    refine ⟨h2, ?_⟩
    simp only [Cache.delete, Cache.get_stats, Cache.Stats.mk.injEq]
    have hle : (st.filter (fun p => decide (p.2.expires_at < now))).length ≤ st.length :=
      List.length_filter_le _ st
    have hle2 : ((st.filter (fun p => p.1 != key)).filter
        (fun p => decide (p.2.expires_at < now))).length ≤
        (st.filter (fun p => p.1 != key)).length :=
      List.length_filter_le _ _
    refine ⟨by omega, by omega, by omega⟩

theorem cache_get_absent_iff_lazy_expiration_witness :
    lookupEntry (Cache.get [(("k" : String), (⟨.wellFormed (5 : Nat), 10, 0⟩ : CacheEntry Nat))] "k" 50).2 "k" = none ∧
    Cache.get_stats (Cache.get [(("k" : String), (⟨.wellFormed (5 : Nat), 10, 0⟩ : CacheEntry Nat))] "k" 50).2 50 =
      { total_entries :=
          (Cache.get_stats [(("k" : String), (⟨.wellFormed (5 : Nat), 10, 0⟩ : CacheEntry Nat))] 50).total_entries - 1,
        expired_entries :=
          (Cache.get_stats [(("k" : String), (⟨.wellFormed (5 : Nat), 10, 0⟩ : CacheEntry Nat))] 50).expired_entries - 1,
        valid_entries :=
          (Cache.get_stats [(("k" : String), (⟨.wellFormed (5 : Nat), 10, 0⟩ : CacheEntry Nat))] 50).valid_entries } :=
  (cache_get_absent_iff_lazy_expiration
      [("k", ⟨.wellFormed 5, 10, 0⟩)] "k" 50 (by simp)).2
    ⟨.wellFormed 5, 10, 0⟩ rfl (by norm_num)

/-- C7: a stored, unexpired row whose bytes cannot be decoded makes `Cache.get`
raise a `CacheError` (deserialization failure) instead of returning `None`:
corruption is reported, never masked as a cache miss. -/
theorem cache_get_corruption_raises {α : Type} (st : CacheState α) (key raw : String)
    (now : Int) (e : CacheEntry α) (hl : lookupEntry st key = some e)
    (hexp : ¬ now > e.expires_at) (hv : e.value = .corrupt raw) :
    (Cache.get st key now).1 = .error ("Cannot deserialize cached value: " ++ raw) := by
  rw [cache_get_of_lookup_some st key now e hl, if_neg hexp, hv]
  rfl

theorem cache_get_corruption_raises_witness :
    (Cache.get [(("k" : String), (⟨.corrupt "xx", 100, 0⟩ : CacheEntry Nat))] "k" 50).1 =
      .error ("Cannot deserialize cached value: " ++ "xx") :=
  cache_get_corruption_raises [("k", ⟨.corrupt "xx", 100, 0⟩)] "k" "xx" 50
    ⟨.corrupt "xx", 100, 0⟩ rfl (by norm_num) rfl

/-- C10: `Cache.set` performs no validation of `ttl_seconds`: for every integer
TTL, including zero and negative values, it stores a row with
`created_at = now` and `expires_at = now + ttl_seconds`, so the invariant
`expires_at > created_at` of the stored row holds exactly when `ttl_seconds > 0`. -/
theorem cache_set_accepts_any_ttl {α : Type} (st : CacheState α) (key : String) (v : α)
    (ttl_seconds now : Int) :
    ∃ e, lookupEntry (Cache.set st key v ttl_seconds now) key = some e ∧
      e.created_at = now ∧ e.expires_at = now + ttl_seconds ∧ e.value = json_dumps v ∧
      (e.created_at < e.expires_at ↔ 0 < ttl_seconds) := by
  refine ⟨⟨json_dumps v, now + ttl_seconds, now⟩,
    lookupEntry_set_self st key v ttl_seconds now, rfl, rfl, rfl, ?_⟩
  show now < now + ttl_seconds ↔ 0 < ttl_seconds
  omega

/-! ### Theorems: news aggregation claims -/

theorem fetch_fold_eq (sources : List SourceRun) (accA : List NewsArticle)
    (accE : List String) :
    sources.foldl
        (fun acc s =>
          match s.fetched with
          | .ok articles => (acc.1 ++ articles, acc.2)
          | .error e => (acc.1, acc.2 ++ [s.name ++ ": " ++ e]))
        (accA, accE) =
      (accA ++ successArticles sources, accE ++ collectedErrors sources) := by
  induction sources generalizing accA accE with
  | nil => simp [successArticles, collectedErrors]
  | cons s rest ih =>
    cases hf : s.fetched with
    | ok articles =>
      simp only [List.foldl_cons, hf, successArticles, collectedErrors]
      rw [ih]
      simp [List.append_assoc]
    | error e =>
      simp only [List.foldl_cons, hf, successArticles, collectedErrors]
      rw [ih]
      simp [List.append_assoc]

theorem get_news_miss (st : CacheState (List ArticleDict)) (sources : List SourceRun)
    (limit : Nat) (now ttl : Int) (hmiss : lookupEntry st newsCacheKey = none) :
    get_news st sources limit false now ttl =
      if (successArticles sources).isEmpty then
        if !(collectedErrors sources).isEmpty then
          .error (.newsError ("All news sources failed: " ++ joinSemi (collectedErrors sources)))
        else
          .error (.newsError "No news sources configured")
      else
        .ok (((sortByPublishedDesc (successArticles sources)).map NewsArticle.to_dict).take limit,
          Cache.set st newsCacheKey
            (((sortByPublishedDesc (successArticles sources)).map NewsArticle.to_dict).take limit)
            ttl now) := by
  have hget : Cache.get st newsCacheKey now = (Except.ok none, st) := by
    rw [Cache.get, hmiss]
  simp only [get_news, Bool.false_eq_true, if_false, hget, fetch_fold_eq, List.nil_append]

theorem successArticles_eq_nil (sources : List SourceRun)
    (hall : ∀ s ∈ sources, ∃ m, s.fetched = Except.error m) :
    successArticles sources = [] := by
  induction sources with
  | nil => rfl
  | cons s rest ih =>
    obtain ⟨m, hm⟩ := hall s (List.mem_cons_self s rest)
    rw [successArticles, hm]
    simpa using ih (fun x hx => hall x (List.mem_cons_of_mem s hx))

theorem mem_collectedErrors (sources : List SourceRun) (s : SourceRun) (hs : s ∈ sources)
    (m : String) (hm : s.fetched = Except.error m) :
    (s.name ++ ": " ++ m) ∈ collectedErrors sources := by
  induction sources with
  | nil => cases hs
  | cons f rest ih =>
    rcases List.mem_cons.mp hs with rfl | hs2
    · rw [collectedErrors, hm]
      simp
    · rw [collectedErrors]
      cases hf : f.fetched <;> simp [ih hs2]

theorem mem_joinSemi_infix (l : List String) (e : String) (he : e ∈ l) :
    ∃ pre post, joinSemi l = pre ++ e ++ post := by
  induction l with
  | nil => cases he
  | cons f rest ih =>
    cases rest with
    | nil =>
      rw [List.mem_singleton] at he
      subst he
      refine ⟨"", "", ?_⟩
      show e = "" ++ e ++ ""
      apply String.ext
      simp
    | cons g rest2 =>
      rcases List.mem_cons.mp he with rfl | he2
      · refine ⟨"", "; " ++ joinSemi (g :: rest2), ?_⟩
        show e ++ "; " ++ joinSemi (g :: rest2) = "" ++ e ++ ("; " ++ joinSemi (g :: rest2))
        apply String.ext
        simp
      · obtain ⟨pre, post, hp⟩ := ih he2
        refine ⟨f ++ "; " ++ pre, post, ?_⟩
        show f ++ "; " ++ joinSemi (g :: rest2) = f ++ "; " ++ pre ++ e ++ post
        rw [hp]
        apply String.ext
        simp

theorem sortKey_eq_published (a : NewsArticle) : sortKey a = a.published := by
  rw [sortKey]
  by_cases h : a.published = "" <;> simp [h]

theorem mem_insertDesc (x z : NewsArticle) (l : List NewsArticle) :
    z ∈ insertDesc x l ↔ z = x ∨ z ∈ l := by
  induction l with
  | nil => simp [insertDesc]
  | cons y ys ih =>
    rw [insertDesc]
    by_cases h : pubBelow x y
    · rw [if_pos h]
      simp only [List.mem_cons, ih]
      tauto
    · rw [if_neg h]
      simp only [List.mem_cons]

theorem pairwise_insertDesc (x : NewsArticle) (l : List NewsArticle)
    (h : l.Pairwise (fun a b => (sortKey b).data ≤ (sortKey a).data)) :
    (insertDesc x l).Pairwise (fun a b => (sortKey b).data ≤ (sortKey a).data) := by
  induction l with
  | nil => simp [insertDesc]
  | cons y ys ih =>
    rw [List.pairwise_cons] at h
    obtain ⟨hy, hys⟩ := h
    rw [insertDesc]
    by_cases hb : pubBelow x y
    · rw [if_pos hb]
      rw [List.pairwise_cons]
      refine ⟨?_, ih hys⟩
      intro z hz
      rcases (mem_insertDesc x z ys).mp hz with rfl | hzys
      · exact le_of_lt hb
      · exact hy z hzys
    · rw [if_neg hb]
      rw [List.pairwise_cons]
      refine ⟨?_, List.pairwise_cons.mpr ⟨hy, hys⟩⟩
      intro z hz
      rcases List.mem_cons.mp hz with rfl | hzys
      · exact not_lt.mp hb
      · exact le_trans (hy z hzys) (not_lt.mp hb)

theorem pairwise_sortByPublishedDesc (l : List NewsArticle) :
    (sortByPublishedDesc l).Pairwise (fun a b => (sortKey b).data ≤ (sortKey a).data) := by
  induction l with
  | nil => simp [sortByPublishedDesc]
  | cons x xs ih =>
    rw [sortByPublishedDesc, List.foldr_cons]
    exact pairwise_insertDesc x _ ih

/-- C1 counterexample: on a cache miss with two fetched records, one carrying the
timestamp 2020-01-01 and one whose upstream entry had no published timestamp
(records built at construction time 2024-01-01), `get_news` returns the
missing-timestamp record FIRST, not at the end of the returned sequence: the
claim that such a record sorts as the lowest value is false on this input. -/
theorem news_undated_not_last_counterexample :
    get_news [] [⟨"RSS: example", .ok [c1ArticleDated, c1ArticleUndated]⟩] 10 false 0 900 =
      .ok ([c1ArticleUndated.to_dict, c1ArticleDated.to_dict],
        Cache.set [] newsCacheKey [c1ArticleUndated.to_dict, c1ArticleDated.to_dict] 900 0) ∧
    ([c1ArticleUndated.to_dict, c1ArticleDated.to_dict].getLast? ≠
      some c1ArticleUndated.to_dict) := by
  constructor
  · rfl
  · decide

/-- C1 (amended): on a cache miss the merged records are returned sorted descending
by the `published` field, but a record whose upstream entry had a missing or empty
published timestamp does not sort as the lowest value: `NewsArticle.__init__`
replaces the missing value with the construction-time `datetime.now().isoformat()`,
and the record is ordered by that timestamp like any other record. -/
theorem news_sorted_desc_undated_gets_now (st : CacheState (List ArticleDict))
    (sources : List SourceRun) (limit : Nat) (now ttl : Int) (out : List ArticleDict)
    (st2 : CacheState (List ArticleDict)) (hmiss : lookupEntry st newsCacheKey = none)
    (h : get_news st sources limit false now ttl = .ok (out, st2)) :
    out.Pairwise (fun a b => b.published.data ≤ a.published.data) ∧
    (∀ t l s d n, (mkNewsArticle t l s none d n).published = n) ∧
    (∀ t l s d n, (mkNewsArticle t l s (some "") d n).published = n) := by
  refine ⟨?_, fun t l s d n => rfl, fun t l s d n => rfl⟩
  rw [get_news_miss st sources limit now ttl hmiss] at h
  by_cases hempty : (successArticles sources).isEmpty
  · rw [if_pos hempty] at h
    by_cases herr : !(collectedErrors sources).isEmpty
    · rw [if_pos herr] at h
      cases h
    · rw [if_neg herr] at h
      cases h
  · rw [if_neg hempty] at h
    have hout : out =
        ((sortByPublishedDesc (successArticles sources)).map NewsArticle.to_dict).take limit := by
      have := (Except.ok.inj h)
      exact (congrArg Prod.fst this).symm
    subst hout
    have hsorted := pairwise_sortByPublishedDesc (successArticles sources)
    have hmap : ((sortByPublishedDesc (successArticles sources)).map NewsArticle.to_dict).Pairwise
        (fun a b => b.published.data ≤ a.published.data) := by
      refine List.Pairwise.map _ ?_ hsorted
      intro a b hab
      simpa [NewsArticle.to_dict, sortKey_eq_published] using hab
    exact hmap.sublist (List.take_sublist limit _)

theorem news_sorted_desc_undated_gets_now_witness :
    ([c1ArticleUndated.to_dict, c1ArticleDated.to_dict] : List ArticleDict).Pairwise
      (fun a b => b.published.data ≤ a.published.data) :=
  (news_sorted_desc_undated_gets_now []
    [⟨"RSS: example", .ok [c1ArticleDated, c1ArticleUndated]⟩] 10 0 900
    [c1ArticleUndated.to_dict, c1ArticleDated.to_dict] _ rfl rfl).1

/-- C2: on a cache miss, when the union of the successfully fetched records is
non-empty, `get_news` does not raise: it returns exactly the records of the
succeeding sources (their concatenation in registration order), sorted descending
and truncated to `limit`, and caches them; records of failing sources do not
appear (only successful fetches contribute to `successArticles`). -/
theorem news_partial_success (st : CacheState (List ArticleDict))
    (sources : List SourceRun) (limit : Nat) (now ttl : Int)
    (hmiss : lookupEntry st newsCacheKey = none)
    (hne : successArticles sources ≠ []) :
    get_news st sources limit false now ttl =
      .ok (((sortByPublishedDesc (successArticles sources)).map NewsArticle.to_dict).take limit,
        Cache.set st newsCacheKey
          (((sortByPublishedDesc (successArticles sources)).map NewsArticle.to_dict).take limit)
          ttl now) := by
  rw [get_news_miss st sources limit now ttl hmiss]
  rw [if_neg (by simpa using hne)]

theorem news_partial_success_witness :
    get_news []
        [⟨"A", .error "boom"⟩,
         ⟨"B", .ok [⟨"t1", "l1", "B", "2021", ""⟩, ⟨"t2", "l2", "B", "2023", ""⟩,
                    ⟨"t3", "l3", "B", "2022", ""⟩]⟩] 10 false 0 900 =
      .ok (((sortByPublishedDesc (successArticles
              [⟨"A", .error "boom"⟩,
               ⟨"B", .ok [⟨"t1", "l1", "B", "2021", ""⟩, ⟨"t2", "l2", "B", "2023", ""⟩,
                          ⟨"t3", "l3", "B", "2022", ""⟩]⟩])).map NewsArticle.to_dict).take 10,
        Cache.set [] newsCacheKey
          (((sortByPublishedDesc (successArticles
              [⟨"A", .error "boom"⟩,
               ⟨"B", .ok [⟨"t1", "l1", "B", "2021", ""⟩, ⟨"t2", "l2", "B", "2023", ""⟩,
                          ⟨"t3", "l3", "B", "2022", ""⟩]⟩])).map NewsArticle.to_dict).take 10)
          900 0) :=
  news_partial_success []
    [⟨"A", .error "boom"⟩,
     ⟨"B", .ok [⟨"t1", "l1", "B", "2021", ""⟩, ⟨"t2", "l2", "B", "2023", ""⟩,
                ⟨"t3", "l3", "B", "2022", ""⟩]⟩] 10 0 900 rfl (by decide)

/-- C3: on a cache miss, when every configured source raises, `get_news` raises a
`NewsError` whose message is built from all collected per-source error messages,
and every collected message occurs inside it. -/
theorem news_all_sources_fail (st : CacheState (List ArticleDict))
    (sources : List SourceRun) (limit : Nat) (now ttl : Int)
    (hmiss : lookupEntry st newsCacheKey = none)
    (hall : ∀ s ∈ sources, ∃ m, s.fetched = Except.error m)
    (hne : sources ≠ []) :
    ∃ msg,
      get_news st sources limit false now ttl = .error (.newsError msg) ∧
      msg = "All news sources failed: " ++ joinSemi (collectedErrors sources) ∧
      ∀ s ∈ sources, ∀ m, s.fetched = Except.error m →
        ∃ pre post, msg = pre ++ (s.name ++ ": " ++ m) ++ post := by
  have hempty : (successArticles sources).isEmpty := by
    simp [successArticles_eq_nil sources hall]
  have herrne : collectedErrors sources ≠ [] := by
    cases sources with
    | nil => exact absurd rfl hne
    | cons s rest =>
      obtain ⟨m, hm⟩ := hall s (List.mem_cons_self s rest)
      rw [collectedErrors, hm]
      simp
  refine ⟨"All news sources failed: " ++ joinSemi (collectedErrors sources), ?_, rfl, ?_⟩
  · rw [get_news_miss st sources limit now ttl hmiss, if_pos hempty,
      if_pos (by simpa using herrne)]
  · intro s hs m hm
    obtain ⟨pre, post, hp⟩ :=
      mem_joinSemi_infix (collectedErrors sources) (s.name ++ ": " ++ m)
        (mem_collectedErrors sources s hs m hm)
    refine ⟨"All news sources failed: " ++ pre, post, ?_⟩
    rw [hp]
    apply String.ext
    simp

theorem news_all_sources_fail_witness :
    ∃ msg,
      get_news [] [⟨"A", .error "boom"⟩, ⟨"B", .error "bust"⟩] 5 false 0 900 =
        .error (.newsError msg) := by
  obtain ⟨msg, h1, h2, h3⟩ :=
    news_all_sources_fail [] [⟨"A", .error "boom"⟩, ⟨"B", .error "bust"⟩] 5 0 900 rfl
      (by
        intro s hs
        rcases List.mem_cons.mp hs with rfl | hs2
        · exact ⟨"boom", rfl⟩
        · rcases List.mem_cons.mp hs2 with rfl | hs3
          · exact ⟨"bust", rfl⟩
          · cases hs3)
      (by simp)
  exact ⟨msg, h1⟩

/-- C4: with a warm (present, unexpired) entry under the aggregated key and
`force_refresh = false`, `get_news` returns the first `min limit length` items of
the cached list, leaves the cache unchanged, and performs no upstream fetch: the
result is the same for every `sources` value, so a later call with a larger
`limit` against a warm cache returns only the cached items rather than
triggering a broader fetch. -/
theorem news_warm_cache_hit (st : CacheState (List ArticleDict))
    (sources : List SourceRun) (limit : Nat) (now ttl : Int)
    (e : CacheEntry (List ArticleDict)) (cached : List ArticleDict)
    (hl : lookupEntry st newsCacheKey = some e)
    (hexp : ¬ now > e.expires_at)
    (hv : e.value = .wellFormed cached) :
    get_news st sources limit false now ttl = .ok (cached.take limit, st) ∧
    (cached.take limit).length = min limit cached.length := by
  have hget : Cache.get st newsCacheKey now = (Except.ok (some cached), st) := by
    rw [cache_get_of_lookup_some st newsCacheKey now e hl, if_neg hexp, hv]
    rfl
  refine ⟨?_, List.length_take limit cached⟩
  simp only [get_news, Bool.false_eq_true, if_false, hget]

theorem news_warm_cache_hit_witness :
    get_news [(newsCacheKey,
        (⟨.wellFormed [⟨"a", "l", "s", "p", "d"⟩, ⟨"b", "l", "s", "p", "d"⟩], 100, 0⟩ :
          CacheEntry (List ArticleDict)))]
      [⟨"S", .error "down"⟩] 1 false 50 900 =
      .ok (([⟨"a", "l", "s", "p", "d"⟩, ⟨"b", "l", "s", "p", "d"⟩] : List ArticleDict).take 1,
        [(newsCacheKey,
          (⟨.wellFormed [⟨"a", "l", "s", "p", "d"⟩, ⟨"b", "l", "s", "p", "d"⟩], 100, 0⟩ :
            CacheEntry (List ArticleDict)))]) ∧
    (([⟨"a", "l", "s", "p", "d"⟩, ⟨"b", "l", "s", "p", "d"⟩] : List ArticleDict).take 1).length =
      min 1 ([⟨"a", "l", "s", "p", "d"⟩, ⟨"b", "l", "s", "p", "d"⟩] : List ArticleDict).length :=
  news_warm_cache_hit _ [⟨"S", .error "down"⟩] 1 50 900
    ⟨.wellFormed [⟨"a", "l", "s", "p", "d"⟩, ⟨"b", "l", "s", "p", "d"⟩], 100, 0⟩
    [⟨"a", "l", "s", "p", "d"⟩, ⟨"b", "l", "s", "p", "d"⟩] rfl (by norm_num) rfl

/-! ### Theorems: weather claims -/

/-- C8: `WeatherFetcher` construction succeeds exactly when the configuration has
all three required keys `weather.api_key`, `weather.latitude` and
`weather.longitude`; when one is missing, construction fails with a
`WeatherConfigError` — and since the constructor takes no upstream response, this
happens before any network call can be attempted. -/
theorem weather_init_validates_config (cfg : Config) :
    ((WeatherFetcher.init cfg).isOk =
      (cfg.has "weather.api_key" && cfg.has "weather.latitude" &&
        cfg.has "weather.longitude")) ∧
    (∀ err, WeatherFetcher.init cfg = .error err → ∃ m, err = .configError m) := by
  constructor
  · cases h1 : cfg.has "weather.api_key" <;> cases h2 : cfg.has "weather.latitude" <;>
      cases h3 : cfg.has "weather.longitude" <;>
      simp [WeatherFetcher.init, validate_config, required_fields, List.find?, h1, h2, h3,
        Except.isOk, Except.toBool]
  · intro err herr
    cases hf : required_fields.find? (fun fd => !(cfg.has fd.1)) with
    | none =>
      rw [WeatherFetcher.init, validate_config, hf] at herr
      cases herr
    | some fd =>
      rw [WeatherFetcher.init, validate_config, hf] at herr
      exact ⟨"Missing required configuration: " ++ fd.2 ++ " (" ++ fd.1 ++ ")",
        (Except.error.inj herr).symm⟩

theorem weather_init_validates_config_witness :
    (WeatherFetcher.init (fun _ : String => some "v")).isOk = true ∧
    ∃ m, WeatherError.configError
        "Missing required configuration: OpenWeatherMap API key (weather.api_key)" =
      WeatherError.configError m :=
  ⟨(weather_init_validates_config (fun _ : String => some "v")).1,
    (weather_init_validates_config (fun _ : String => none)).2
      (.configError "Missing required configuration: OpenWeatherMap API key (weather.api_key)")
      rfl⟩

theorem round1_zero : round1 0 = 0 := by
  rw [round1, roundHalfEven]
  norm_num

/-- C9: `_transform_response` never raises merely because an optional upstream
field is absent — whenever the `weather` array is not present-and-empty it returns
a record — and each numeric output field defaults to 0, each string output field
to its explicit placeholder, when the corresponding upstream field is missing. -/
theorem weather_transform_defaults (p : WeatherPayload) (units now_iso : String)
    (hw : p.weather.getD [emptyWeather] ≠ []) :
    ∃ r, transform_response p units now_iso = .ok r ∧
      ((p.main.getD emptyMain).temp = none → r.temperature = 0) ∧
      ((p.main.getD emptyMain).feels_like = none → r.feels_like = 0) ∧
      ((p.main.getD emptyMain).temp_min = none → r.temp_min = 0) ∧
      ((p.main.getD emptyMain).temp_max = none → r.temp_max = 0) ∧
      ((p.main.getD emptyMain).humidity = none → r.humidity = 0) ∧
      ((p.main.getD emptyMain).pressure = none → r.pressure = 0) ∧
      ((p.wind.getD emptyWind).speed = none → r.wind_speed = 0) ∧
      ((p.wind.getD emptyWind).deg = none → r.wind_direction = 0) ∧
      ((p.clouds.getD emptyClouds).all = none → r.cloudiness = 0) ∧
      (∀ w ws, p.weather.getD [emptyWeather] = w :: ws →
        (w.main = none → r.condition = "Unknown") ∧
        (w.description = none → r.description = "No description") ∧
        (w.icon = none → r.icon = "")) ∧
      (p.name = none → r.location = "Unknown") ∧
      ((p.sys.getD emptySys).country = none → r.country = "") := by
  obtain ⟨w, ws, hws⟩ := List.exists_cons_of_ne_nil hw
  have hhead : (p.weather.getD [emptyWeather]).head? = some w := by
    rw [hws]
    rfl
  refine ⟨transform_ok p w units now_iso, ?_, ?_, ?_, ?_, ?_, ?_, ?_, ?_, ?_, ?_, ?_, ?_, ?_⟩
  · rw [transform_response, hhead]
  · intro h
    simp [transform_ok, h, round1_zero]
  · intro h
    simp [transform_ok, h, round1_zero]
  · intro h
    simp [transform_ok, h, round1_zero]
  · intro h
    simp [transform_ok, h, round1_zero]
  · intro h
    simp [transform_ok, h]
  · intro h
    simp [transform_ok, h]
  · intro h
    simp [transform_ok, h, round1_zero]
  · intro h
    simp [transform_ok, h]
  · intro h
    simp [transform_ok, h]
  · intro w2 ws2 hws2
    rw [hws] at hws2
    obtain ⟨rfl, rfl⟩ := List.cons.inj hws2
    refine ⟨?_, ?_, ?_⟩ <;> intro h <;> simp [transform_ok, h]
  · intro h
    simp [transform_ok, h]
  · intro h
    simp [transform_ok, h]

theorem weather_transform_defaults_witness :
    ∃ r, transform_response ⟨none, none, none, none, none, none⟩ "imperial" "T" =
      Except.ok r ∧ r.temperature = 0 ∧ r.condition = "Unknown" := by
  obtain ⟨r, hr, h1, _, _, _, _, _, _, _, _, hstr, _, _⟩ :=
    weather_transform_defaults ⟨none, none, none, none, none, none⟩ "imperial" "T" (by simp)
  exact ⟨r, hr, h1 rfl, (hstr emptyWeather [] rfl).1 rfl⟩

end PiDisp
